import Mathlib

/-!
Verification development for the MFA form validation logic of
allauth/mfa/forms.py: code-based authentication (AuthenticateForm),
TOTP activation (ActivateTOTPForm), TOTP deactivation (DeactivateTOTPForm),
and WebAuthn registration/authentication forms (AddWebAuthnForm,
AuthenticateWebAuthnForm).

External collaborators that are not part of the examined source file
(the rate-limit backend, the totp module, the webauthn verifier, Django
signing and Python json) are modelled explicitly: stateful collaborators
as explicit state passing, opaque verifiers as function parameters.
Calls to collaborators are additionally recorded in an event trace so
that claims about which collaborator is or is not consulted become
statements about the trace.
-/

set_option maxHeartbeats 1000000

namespace MfaForms

/-- Error message identifiers drawn from the adapter error-message tables
and the literal strings raised by the forms. -/
inductive ErrorMessage
  | too_many_login_attempts
  | incorrect_code
  | unverified_email
  | cannot_delete_authenticator
  | tampered_form
  | passwordless_unsupported
  | credential_verification_failed
  | field_required
  deriving DecidableEq

/-- Python-level failure outcomes. A Django ValidationError is the
controlled failure that the form machinery records as a form error;
BadSignature, JSONDecodeError and KeyError are exceptions that the
surrounding code may or may not catch. -/
inductive PyError
  | validationError (msg : ErrorMessage)
  | badSignature
  | jsonDecodeError
  | keyError (key : String)
  deriving DecidableEq

/-- Result of a Python computation: a normal value or a raised error. -/
inductive PyResult (α : Type)
  | ok (a : α)
  | error (e : PyError)
  deriving DecidableEq

/-- Observable calls to external collaborators, recorded as a trace. -/
inductive Event
  | consume (action key : String)
  | clear (action key : String)
  | validate_code (authId : Nat) (code : String)
  | get_totp_secret (regenerate : Bool)
  | validate_totp_code (secret code : String)
  | complete_registration
  | complete_authentication
  deriving DecidableEq

/-- Modelled from the spec: state of the rate-limit backend
(allauth.core.ratelimit is not part of the examined source). The budget is
per (action, key); `used` counts consumed units, the remaining budget for a
key is `limit` minus its usage. -/
structure RateLimitState where
  limit : Nat
  used : List (String × String × Nat)
  deriving DecidableEq

/-- Association lookup of the consumed count for (action, key); zero when
the key has never been consumed or was cleared. -/
def rlLookup : List (String × String × Nat) → String → String → Nat
  | [], _, _ => 0
  | (a, k, n) :: rest, action, key =>
      if a = action ∧ k = key then n else rlLookup rest action key

/-- Remove the entry for (action, key), resetting its usage to zero. -/
def rlErase : List (String × String × Nat) → String → String → List (String × String × Nat)
  | [], _, _ => []
  | (a, k, n) :: rest, action, key =>
      if a = action ∧ k = key then rlErase rest action key
      else (a, k, n) :: rlErase rest action key

def RateLimitState.usage (st : RateLimitState) (action key : String) : Nat :=
  rlLookup st.used action key

/-- Modelled from the spec: ratelimit.consume decrements the per-key budget
and returns false once the budget is exhausted within the current window. -/
def ratelimit_consume (st : RateLimitState) (action key : String) :
    Bool × RateLimitState :=
  let u := st.usage action key
  if u < st.limit then
    (true, { st with used := (action, key, u + 1) :: rlErase st.used action key })
  else (false, st)

/-- Modelled from the spec: ratelimit.clear resets the per-key budget
immediately. -/
def ratelimit_clear (st : RateLimitState) (action key : String) : RateLimitState :=
  { st with used := rlErase st.used action key }

/-- Authenticator types from allauth.mfa.models.Authenticator.Type. -/
inductive AuthenticatorType
  | recovery_codes
  | totp
  | webauthn
  deriving DecidableEq

/-- A stored authenticator record (allauth.mfa.models.Authenticator),
restricted to the fields the forms consult. -/
structure Authenticator where
  id : Nat
  user : Nat
  atype : AuthenticatorType
  deriving DecidableEq

/-- External collaborators of AuthenticateForm: the stored authenticator
table and the type-specific code validation dispatched through
auth.wrap().validate_code (implemented outside the examined source). -/
structure MfaEnv where
  authenticators : List Authenticator
  validate_code : Authenticator → String → Bool

/-- Outcome of AuthenticateForm.clean_code: the returned value or raised
ValidationError, the rate-limit state afterwards, the authenticator stored
on the form on success, and the trace of collaborator calls. -/
structure CleanCodeResult where
  result : PyResult String
  rl : RateLimitState
  authenticator : Option Authenticator
  trace : List Event
  deriving DecidableEq

/-- The rate-limit key built in AuthenticateForm.clean_code from the user
primary key. -/
def AuthenticateForm.ratelimit_key (userPk : Nat) : String :=
  "mfa-auth-user-" ++ toString userPk

/-- The queryset Authenticator.objects.filter(user=self.user)
.exclude(type=Authenticator.Type.WEBAUTHN). -/
def AuthenticateForm.enrolled (env : MfaEnv) (userPk : Nat) : List Authenticator :=
  env.authenticators.filter fun a =>
    decide (a.user = userPk ∧ a.atype ≠ AuthenticatorType.webauthn)

/-- The for-loop of AuthenticateForm.clean_code: try each authenticator in
order; the first whose validate_code accepts the code wins, stores itself on
the form and clears the rate limit; if none accepts, raise the
incorrect_code ValidationError. -/
def AuthenticateForm.tryAuthenticators (env : MfaEnv) (rl : RateLimitState)
    (key code : String) : List Authenticator → CleanCodeResult
  | [] => ⟨.error (.validationError .incorrect_code), rl, none, []⟩
  | a :: rest =>
      if env.validate_code a code then
        ⟨.ok code, ratelimit_clear rl "login_failed" key, some a,
          [Event.validate_code a.id code, Event.clear "login_failed" key]⟩
      else
        let r := AuthenticateForm.tryAuthenticators env rl key code rest
        ⟨r.result, r.rl, r.authenticator, Event.validate_code a.id code :: r.trace⟩

/-- AuthenticateForm.clean_code: first consume the rate limit under action
login_failed with a key derived from the user primary key; if denied raise
the too_many_login_attempts ValidationError; otherwise iterate the enrolled
non-WebAuthn authenticators of the user. -/
def AuthenticateForm.clean_code (env : MfaEnv) (userPk : Nat)
    (rl : RateLimitState) (code : String) : CleanCodeResult :=
  let key := AuthenticateForm.ratelimit_key userPk
  let c := ratelimit_consume rl "login_failed" key
  if c.1 then
    let r := AuthenticateForm.tryAuthenticators env c.2 key code
      (AuthenticateForm.enrolled env userPk)
    ⟨r.result, r.rl, r.authenticator, Event.consume "login_failed" key :: r.trace⟩
  else
    ⟨.error (.validationError .too_many_login_attempts), c.2, none,
      [Event.consume "login_failed" key]⟩

/-- C1: when the rate limiter denies the attempt, clean_code fails with the
dedicated too_many_login_attempts error, distinct from incorrect_code, and
the trace shows only the consume call with action login_failed and the
user-derived key: no authenticator is queried and no validate_code runs. -/
theorem authenticateForm_rate_limited_fails_before_validation
    (env : MfaEnv) (userPk : Nat) (rl : RateLimitState) (code : String)
    (h : (ratelimit_consume rl "login_failed"
        (AuthenticateForm.ratelimit_key userPk)).1 = false) :
    (AuthenticateForm.clean_code env userPk rl code).result
        = .error (.validationError .too_many_login_attempts)
    ∧ (AuthenticateForm.clean_code env userPk rl code).result
        ≠ .error (.validationError .incorrect_code)
    ∧ (AuthenticateForm.clean_code env userPk rl code).trace
        = [Event.consume "login_failed" (AuthenticateForm.ratelimit_key userPk)]
    ∧ (AuthenticateForm.clean_code env userPk rl code).authenticator = none := by
  have hc : AuthenticateForm.clean_code env userPk rl code =
      ⟨.error (.validationError .too_many_login_attempts),
        (ratelimit_consume rl "login_failed"
          (AuthenticateForm.ratelimit_key userPk)).2, none,
        [Event.consume "login_failed" (AuthenticateForm.ratelimit_key userPk)]⟩ := by
    unfold AuthenticateForm.clean_code
    simp only [h, Bool.false_eq_true, if_false]
  rw [hc]
  exact ⟨rfl, by simp, rfl, rfl⟩

/-- Witness for C1 at a concrete exhausted rate-limit state. -/
def rlExhausted : RateLimitState :=
  ⟨1, [("login_failed", "mfa-auth-user-7", 1)]⟩

def envW : MfaEnv :=
  ⟨[⟨1, 7, AuthenticatorType.totp⟩], fun a c => decide (a.id = 1 ∧ c = "123456")⟩

theorem authenticateForm_rate_limited_witness :
    (AuthenticateForm.clean_code envW 7 rlExhausted "123456").result
      = .error (.validationError .too_many_login_attempts) :=
  (authenticateForm_rate_limited_fails_before_validation envW 7 rlExhausted
    "123456" (by decide)).1

theorem rlLookup_erase (l : List (String × String × Nat)) (action key : String) :
    rlLookup (rlErase l action key) action key = 0 := by
  induction l with
  | nil => rfl
  | cons p rest ih =>
      obtain ⟨a, k, n⟩ := p
      by_cases hak : a = action ∧ k = key
      · simpa [rlErase, hak] using ih
      · simp [rlErase, hak, rlLookup, ih]

theorem usage_clear (st : RateLimitState) (action key : String) :
    (ratelimit_clear st action key).usage action key = 0 :=
  rlLookup_erase st.used action key

theorem usage_consume_true (st : RateLimitState) (action key : String)
    (h : (ratelimit_consume st action key).1 = true) :
    (ratelimit_consume st action key).2.usage action key
      = st.usage action key + 1 := by
  by_cases hu : rlLookup st.used action key < st.limit
  · simp [ratelimit_consume, RateLimitState.usage, hu, rlLookup]
  · exfalso
    rw [show (ratelimit_consume st action key).1 = false by
      simp [ratelimit_consume, RateLimitState.usage, hu]] at h
    exact Bool.false_ne_true h

theorem tryAuthenticators_authenticator (env : MfaEnv) (rl : RateLimitState)
    (key code : String) (l : List Authenticator) :
    (AuthenticateForm.tryAuthenticators env rl key code l).authenticator
      = l.find? fun a => env.validate_code a code := by
  induction l with
  | nil => rfl
  | cons a rest ih =>
      cases hv : env.validate_code a code with
      | true => simp [AuthenticateForm.tryAuthenticators, hv, List.find?]
      | false => simp [AuthenticateForm.tryAuthenticators, hv, List.find?, ih]

theorem tryAuthenticators_no_match (env : MfaEnv) (rl : RateLimitState)
    (key code : String) (l : List Authenticator)
    (h : ∀ a ∈ l, env.validate_code a code = false) :
    (AuthenticateForm.tryAuthenticators env rl key code l).result
        = .error (.validationError .incorrect_code)
    ∧ (AuthenticateForm.tryAuthenticators env rl key code l).rl = rl
    ∧ ∀ e ∈ (AuthenticateForm.tryAuthenticators env rl key code l).trace,
        ∃ i c, e = Event.validate_code i c := by
  induction l with
  | nil => exact ⟨rfl, rfl, by simp [AuthenticateForm.tryAuthenticators]⟩
  | cons a rest ih =>
      have ha := h a (List.mem_cons_self a rest)
      obtain ⟨h1, h2, h3⟩ := ih fun x hx => h x (List.mem_cons_of_mem a hx)
      refine ⟨?_, ?_, ?_⟩
      · simp [AuthenticateForm.tryAuthenticators, ha, h1]
      · simp [AuthenticateForm.tryAuthenticators, ha, h2]
      · intro e he
        simp only [AuthenticateForm.tryAuthenticators, ha, Bool.false_eq_true,
          if_false, List.mem_cons] at he
        rcases he with he | he
        · exact ⟨a.id, code, he⟩
        · exact h3 e he

theorem tryAuthenticators_found (env : MfaEnv) (rl : RateLimitState)
    (key code : String) (l : List Authenticator) (a : Authenticator)
    (h : (l.find? fun x => env.validate_code x code) = some a) :
    (AuthenticateForm.tryAuthenticators env rl key code l).result = .ok code
    ∧ (AuthenticateForm.tryAuthenticators env rl key code l).rl
        = ratelimit_clear rl "login_failed" key
    ∧ Event.clear "login_failed" key
        ∈ (AuthenticateForm.tryAuthenticators env rl key code l).trace := by
  induction l with
  | nil => simp [List.find?] at h
  | cons b rest ih =>
      cases hv : env.validate_code b code with
      | false =>
          rw [List.find?_cons_of_neg _ (by simp [hv])] at h
          obtain ⟨h1, h2, h3⟩ := ih h
          exact ⟨by simp [AuthenticateForm.tryAuthenticators, hv, h1],
            by simp [AuthenticateForm.tryAuthenticators, hv, h2],
            by simp [AuthenticateForm.tryAuthenticators, hv, h3]⟩
      | true =>
          refine ⟨?_, ?_, ?_⟩ <;>
            simp [AuthenticateForm.tryAuthenticators, hv]

theorem tryAuthenticators_validate_only (env : MfaEnv) (rl : RateLimitState)
    (key code : String) (l : List Authenticator) (b : Bool) :
    Event.get_totp_secret b
      ∉ (AuthenticateForm.tryAuthenticators env rl key code l).trace := by
  induction l with
  | nil => simp [AuthenticateForm.tryAuthenticators]
  | cons a rest ih =>
      cases hv : env.validate_code a code with
      | true => simp [AuthenticateForm.tryAuthenticators, hv]
      | false =>
          simp only [AuthenticateForm.tryAuthenticators, hv, Bool.false_eq_true,
            if_false, List.mem_cons]
          intro hmem
          rcases hmem with hmem | hmem
          · exact Event.noConfusion hmem
          · exact ih hmem

/-- C2: when the rate limiter permits the attempt, clean_code tries exactly
the enrolled non-WebAuthn authenticators of the user: it stores the first
one whose validate_code accepts the submitted code, returns the code and
resets the login_failed budget of the user to zero usage; if none accepts,
it raises the incorrect_code ValidationError. -/
theorem authenticateForm_first_match
    (env : MfaEnv) (userPk : Nat) (rl : RateLimitState) (code : String)
    (h : (ratelimit_consume rl "login_failed"
        (AuthenticateForm.ratelimit_key userPk)).1 = true) :
    (AuthenticateForm.clean_code env userPk rl code).authenticator
        = (AuthenticateForm.enrolled env userPk).find?
            (fun a => env.validate_code a code)
    ∧ (∀ a, (AuthenticateForm.enrolled env userPk).find?
            (fun a => env.validate_code a code) = some a →
        (AuthenticateForm.clean_code env userPk rl code).result = .ok code
        ∧ (AuthenticateForm.clean_code env userPk rl code).rl.usage
            "login_failed" (AuthenticateForm.ratelimit_key userPk) = 0
        ∧ a.user = userPk ∧ a.atype ≠ AuthenticatorType.webauthn
        ∧ env.validate_code a code = true)
    ∧ ((AuthenticateForm.enrolled env userPk).find?
            (fun a => env.validate_code a code) = none →
        (AuthenticateForm.clean_code env userPk rl code).result
          = .error (.validationError .incorrect_code)) := by
  have hclean : AuthenticateForm.clean_code env userPk rl code =
      ⟨(AuthenticateForm.tryAuthenticators env
          (ratelimit_consume rl "login_failed"
            (AuthenticateForm.ratelimit_key userPk)).2
          (AuthenticateForm.ratelimit_key userPk) code
          (AuthenticateForm.enrolled env userPk)).result,
        (AuthenticateForm.tryAuthenticators env
          (ratelimit_consume rl "login_failed"
            (AuthenticateForm.ratelimit_key userPk)).2
          (AuthenticateForm.ratelimit_key userPk) code
          (AuthenticateForm.enrolled env userPk)).rl,
        (AuthenticateForm.tryAuthenticators env
          (ratelimit_consume rl "login_failed"
            (AuthenticateForm.ratelimit_key userPk)).2
          (AuthenticateForm.ratelimit_key userPk) code
          (AuthenticateForm.enrolled env userPk)).authenticator,
        Event.consume "login_failed" (AuthenticateForm.ratelimit_key userPk)
          :: (AuthenticateForm.tryAuthenticators env
            (ratelimit_consume rl "login_failed"
              (AuthenticateForm.ratelimit_key userPk)).2
            (AuthenticateForm.ratelimit_key userPk) code
            (AuthenticateForm.enrolled env userPk)).trace⟩ := by
    unfold AuthenticateForm.clean_code
    simp only [h, if_true]
  rw [hclean]
  refine ⟨tryAuthenticators_authenticator _ _ _ _ _, ?_, ?_⟩
  · intro a hfind
    obtain ⟨h1, h2, _⟩ := tryAuthenticators_found _ _ _ _ _ _ hfind
    have hmem := List.mem_of_find?_eq_some hfind
    have hp := List.find?_some hfind
    have hmem2 := (List.mem_filter.mp hmem).2
    have hprops := of_decide_eq_true hmem2
    exact ⟨h1, by rw [h2]; exact usage_clear _ _ _, hprops.1, hprops.2, hp⟩
  · intro hfind
    obtain ⟨h1, _, _⟩ := tryAuthenticators_no_match _ _ _ _ _
      (by simpa using List.find?_eq_none.mp hfind)
    exact h1

def rlFresh : RateLimitState := ⟨3, []⟩

theorem authenticateForm_first_match_witness :
    (AuthenticateForm.clean_code envW 7 rlFresh "123456").result = .ok "123456" :=
  ((authenticateForm_first_match envW 7 rlFresh "123456" (by decide)).2.1
    ⟨1, 7, AuthenticatorType.totp⟩ (by decide)).1

/-- C8: a consumed rate-limit unit is not refunded on failure: when
clean_code fails with incorrect_code, the usage recorded for the user key
under login_failed has grown by exactly the consumed unit, and no clear
call appears in the trace. -/
theorem authenticateForm_no_refund
    (env : MfaEnv) (userPk : Nat) (rl : RateLimitState) (code : String)
    (h : (AuthenticateForm.clean_code env userPk rl code).result
        = .error (.validationError .incorrect_code)) :
    (AuthenticateForm.clean_code env userPk rl code).rl.usage
        "login_failed" (AuthenticateForm.ratelimit_key userPk)
      = rl.usage "login_failed" (AuthenticateForm.ratelimit_key userPk) + 1
    ∧ ∀ act k, Event.clear act k
        ∉ (AuthenticateForm.clean_code env userPk rl code).trace := by
  cases hc : (ratelimit_consume rl "login_failed"
      (AuthenticateForm.ratelimit_key userPk)).1 with
  | false =>
      exfalso
      have := (authenticateForm_rate_limited_fails_before_validation
        env userPk rl code hc).2.1
      exact this h
  | true =>
      have hclean : AuthenticateForm.clean_code env userPk rl code =
          ⟨(AuthenticateForm.tryAuthenticators env
              (ratelimit_consume rl "login_failed"
                (AuthenticateForm.ratelimit_key userPk)).2
              (AuthenticateForm.ratelimit_key userPk) code
              (AuthenticateForm.enrolled env userPk)).result,
            (AuthenticateForm.tryAuthenticators env
              (ratelimit_consume rl "login_failed"
                (AuthenticateForm.ratelimit_key userPk)).2
              (AuthenticateForm.ratelimit_key userPk) code
              (AuthenticateForm.enrolled env userPk)).rl,
            (AuthenticateForm.tryAuthenticators env
              (ratelimit_consume rl "login_failed"
                (AuthenticateForm.ratelimit_key userPk)).2
              (AuthenticateForm.ratelimit_key userPk) code
              (AuthenticateForm.enrolled env userPk)).authenticator,
            Event.consume "login_failed" (AuthenticateForm.ratelimit_key userPk)
              :: (AuthenticateForm.tryAuthenticators env
                (ratelimit_consume rl "login_failed"
                  (AuthenticateForm.ratelimit_key userPk)).2
                (AuthenticateForm.ratelimit_key userPk) code
                (AuthenticateForm.enrolled env userPk)).trace⟩ := by
        unfold AuthenticateForm.clean_code
        simp only [hc, if_true]
      cases hf : (AuthenticateForm.enrolled env userPk).find?
          (fun a => env.validate_code a code) with
      | some a =>
          exfalso
          have hok := (tryAuthenticators_found env
            (ratelimit_consume rl "login_failed"
              (AuthenticateForm.ratelimit_key userPk)).2
            (AuthenticateForm.ratelimit_key userPk) code _ a hf).1
          rw [hclean] at h
          simp only [hok] at h
          exact absurd h (by simp)
      | none =>
          obtain ⟨_, h2, h3⟩ := tryAuthenticators_no_match env
            (ratelimit_consume rl "login_failed"
              (AuthenticateForm.ratelimit_key userPk)).2
            (AuthenticateForm.ratelimit_key userPk) code _
            (by simpa using List.find?_eq_none.mp hf)
          rw [hclean]
          constructor
          · simp only [h2]
            exact usage_consume_true rl "login_failed"
              (AuthenticateForm.ratelimit_key userPk) hc
          · intro act k hmem
            simp only [List.mem_cons] at hmem
            rcases hmem with hmem | hmem
            · exact Event.noConfusion hmem
            · obtain ⟨i, c, he⟩ := h3 _ hmem
              exact Event.noConfusion he

theorem authenticateForm_no_refund_witness :
    (AuthenticateForm.clean_code envW 7 rlFresh "000000").rl.usage
        "login_failed" (AuthenticateForm.ratelimit_key 7)
      = rlFresh.usage "login_failed" (AuthenticateForm.ratelimit_key 7) + 1 :=
  (authenticateForm_no_refund envW 7 rlFresh "000000" (by decide)).1

/-- An email address row (allauth.account.models.EmailAddress), restricted
to the fields ActivateTOTPForm consults. -/
structure EmailAddress where
  user : Nat
  verified : Bool
  deriving DecidableEq

/-- ActivateTOTPForm init: email_verified is the negation of
EmailAddress.objects.filter(user=self.user, verified=False).exists(). -/
def ActivateTOTPForm.email_verified (emails : List EmailAddress) (userPk : Nat) : Bool :=
  !(emails.any fun e => decide (e.user = userPk) && !e.verified)

/-- Modelled from the spec: allauth.mfa.totp.get_totp_secret, which is not
part of the examined source. It returns the pending enrollment secret, or a
freshly generated one when regenerate is requested or no pending secret
exists; the pending state is threaded explicitly and the next random secret
is the parameter fresh. -/
def get_totp_secret (regenerate : Bool) (pending : Option String)
    (fresh : String) : String × Option String :=
  match pending with
  | some s => if regenerate then (fresh, some fresh) else (s, some s)
  | none => (fresh, some fresh)

/-- External collaborator of ActivateTOTPForm: the totp module code check
(allauth.mfa.totp.validate_totp_code, implemented outside the examined
source). -/
structure TotpEnv where
  validate_totp_code : String → String → Bool

/-- Outcome of ActivateTOTPForm.clean_code: the returned value or raised
ValidationError, the form secret attribute afterwards, the pending
enrollment secret afterwards, and the trace of collaborator calls. -/
structure ActivateResult where
  result : PyResult String
  secret : String
  pending : Option String
  trace : List Event
  deriving DecidableEq

/-- ActivateTOTPForm.clean_code: inside a try block, raise unverified_email
when the user has an unverified address, then raise incorrect_code when the
totp check rejects the code; the except handler catches any ValidationError,
regenerates the pending secret into self.secret and re-raises. -/
def ActivateTOTPForm.clean_code (env : TotpEnv) (emails : List EmailAddress)
    (userPk : Nat) (secret : String) (pending : Option String) (fresh : String)
    (code : String) : ActivateResult :=
  if !(ActivateTOTPForm.email_verified emails userPk) then
    let sp := get_totp_secret true pending fresh
    ⟨.error (.validationError .unverified_email), sp.1, sp.2,
      [Event.get_totp_secret true]⟩
  else if !(env.validate_totp_code secret code) then
    let sp := get_totp_secret true pending fresh
    ⟨.error (.validationError .incorrect_code), sp.1, sp.2,
      [Event.validate_totp_code secret code, Event.get_totp_secret true]⟩
  else
    ⟨.ok code, secret, pending, [Event.validate_totp_code secret code]⟩

theorem email_verified_false_iff (emails : List EmailAddress) (userPk : Nat) :
    ActivateTOTPForm.email_verified emails userPk = false
      ↔ ∃ e ∈ emails, e.user = userPk ∧ e.verified = false := by
  simp [ActivateTOTPForm.email_verified, List.any_eq_true]

/-- C6: ActivateTOTPForm.clean_code raises the unverified_email
ValidationError exactly when the user has at least one unverified email
address; when every address is verified, it proceeds to the totp code
check. -/
theorem activateTOTP_unverified_email_gate (env : TotpEnv)
    (emails : List EmailAddress) (userPk : Nat) (secret : String)
    (pending : Option String) (fresh code : String) :
    ((ActivateTOTPForm.clean_code env emails userPk secret pending fresh code).result
        = .error (.validationError .unverified_email)
      ↔ ∃ e ∈ emails, e.user = userPk ∧ e.verified = false)
    ∧ (ActivateTOTPForm.email_verified emails userPk = true →
        Event.validate_totp_code secret code
          ∈ (ActivateTOTPForm.clean_code env emails userPk secret pending fresh code).trace) := by
  constructor
  · rw [← email_verified_false_iff]
    cases hv : ActivateTOTPForm.email_verified emails userPk with
    | false =>
        simp only [ActivateTOTPForm.clean_code, hv, Bool.not_false, if_true]
    | true =>
        simp only [ActivateTOTPForm.clean_code, hv, Bool.not_true,
          Bool.false_eq_true, if_false]
        cases hc : env.validate_totp_code secret code <;> simp
  · intro hv
    cases hc : env.validate_totp_code secret code <;>
      simp [ActivateTOTPForm.clean_code, hv, hc]

def envT : TotpEnv := ⟨fun s c => decide (s = c)⟩

theorem activateTOTP_unverified_email_gate_witness :
    (ActivateTOTPForm.clean_code envT [⟨7, false⟩] 7 "s" (some "s") "f" "1").result
      = .error (.validationError .unverified_email) :=
  (activateTOTP_unverified_email_gate envT [⟨7, false⟩] 7 "s" (some "s") "f" "1").1.mpr
    ⟨⟨7, false⟩, by simp, rfl, rfl⟩

/-- C7: every failure of ActivateTOTPForm.clean_code regenerates the pending
enrollment secret and surfaces the regenerated secret in the form secret
attribute, while AuthenticateForm.clean_code, which validates against
already-activated authenticators, never calls get_totp_secret at all. -/
theorem totp_secret_regeneration_policy (env : TotpEnv)
    (emails : List EmailAddress) (userPk : Nat) (secret : String)
    (pending : Option String) (fresh code : String) :
    (∀ e, (ActivateTOTPForm.clean_code env emails userPk secret pending fresh code).result
          = .error e →
        (ActivateTOTPForm.clean_code env emails userPk secret pending fresh code).secret
            = fresh
        ∧ (ActivateTOTPForm.clean_code env emails userPk secret pending fresh code).pending
            = some fresh
        ∧ Event.get_totp_secret true
            ∈ (ActivateTOTPForm.clean_code env emails userPk secret pending fresh code).trace)
    ∧ ∀ (env2 : MfaEnv) (userPk2 : Nat) (rl2 : RateLimitState) (code2 : String) (b : Bool),
        Event.get_totp_secret b
          ∉ (AuthenticateForm.clean_code env2 userPk2 rl2 code2).trace := by
  constructor
  · intro e he
    cases hv : ActivateTOTPForm.email_verified emails userPk with
    | false =>
        refine ⟨?_, ?_, ?_⟩ <;>
          simp [ActivateTOTPForm.clean_code, hv, get_totp_secret] <;>
          cases pending <;> simp [get_totp_secret]
    | true =>
        cases hc : env.validate_totp_code secret code with
        | false =>
            refine ⟨?_, ?_, ?_⟩ <;>
              simp [ActivateTOTPForm.clean_code, hv, hc, get_totp_secret] <;>
              cases pending <;> simp [get_totp_secret]
        | true =>
            exfalso
            rw [show (ActivateTOTPForm.clean_code env emails userPk secret pending fresh code).result
                = .ok code by simp [ActivateTOTPForm.clean_code, hv, hc]] at he
            exact PyResult.noConfusion he
  · intro env2 userPk2 rl2 code2 b hmem
    revert hmem
    cases hc : (ratelimit_consume rl2 "login_failed"
        (AuthenticateForm.ratelimit_key userPk2)).1 with
    | false =>
        rw [(authenticateForm_rate_limited_fails_before_validation
          env2 userPk2 rl2 code2 hc).2.2.1]
        simp
    | true =>
        intro hmem
        have hclean : (AuthenticateForm.clean_code env2 userPk2 rl2 code2).trace =
            Event.consume "login_failed" (AuthenticateForm.ratelimit_key userPk2)
              :: (AuthenticateForm.tryAuthenticators env2
                (ratelimit_consume rl2 "login_failed"
                  (AuthenticateForm.ratelimit_key userPk2)).2
                (AuthenticateForm.ratelimit_key userPk2) code2
                (AuthenticateForm.enrolled env2 userPk2)).trace := by
          unfold AuthenticateForm.clean_code
          simp only [hc, if_true]
        rw [hclean] at hmem
        simp only [List.mem_cons] at hmem
        rcases hmem with hmem | hmem
        · exact Event.noConfusion hmem
        · exact tryAuthenticators_validate_only env2 _ _ code2 _ _ hmem

theorem totp_secret_regeneration_policy_witness :
    (ActivateTOTPForm.clean_code envT [⟨7, true⟩] 7 "s" (some "s") "fresh" "wrong").secret
      = "fresh" :=
  ((totp_secret_regeneration_policy envT [⟨7, true⟩] 7 "s" (some "s") "fresh" "wrong").1
    (.validationError .incorrect_code) (by decide)).1

/-- C10: with an unverified email address the code is never compared against
the secret (no validate_totp_code call appears in the trace), the failure is
unverified_email, and the pending secret is still regenerated and surfaced,
because the regeneration handler catches every ValidationError. -/
theorem activateTOTP_email_checked_before_code (env : TotpEnv)
    (emails : List EmailAddress) (userPk : Nat) (secret : String)
    (pending : Option String) (fresh code : String)
    (h : ActivateTOTPForm.email_verified emails userPk = false) :
    (∀ s c, Event.validate_totp_code s c
        ∉ (ActivateTOTPForm.clean_code env emails userPk secret pending fresh code).trace)
    ∧ (ActivateTOTPForm.clean_code env emails userPk secret pending fresh code).result
        = .error (.validationError .unverified_email)
    ∧ (ActivateTOTPForm.clean_code env emails userPk secret pending fresh code).secret
        = fresh
    ∧ (ActivateTOTPForm.clean_code env emails userPk secret pending fresh code).pending
        = some fresh
    ∧ Event.get_totp_secret true
        ∈ (ActivateTOTPForm.clean_code env emails userPk secret pending fresh code).trace := by
  refine ⟨?_, ?_, ?_, ?_, ?_⟩ <;>
    simp [ActivateTOTPForm.clean_code, h, get_totp_secret] <;>
    cases pending <;> simp [get_totp_secret]

theorem activateTOTP_email_checked_before_code_witness :
    (ActivateTOTPForm.clean_code envT [⟨7, false⟩] 7 "s" (some "s") "fresh" "s").result
      = .error (.validationError .unverified_email) :=
  (activateTOTP_email_checked_before_code envT [⟨7, false⟩] 7 "s" (some "s")
    "fresh" "s" (by decide)).2.1

/-- Modelled from the spec: a keyed MAC standing in for the Django Signer
signature (django.core.signing is an external dependency). Any concrete
deterministic keyed function supports the control-flow properties studied
here. -/
def macNat (key payload : String) : Nat :=
  ((key ++ ":" ++ payload).toList).foldl
    (fun h c => (h * 31 + c.toNat) % 1000003) 7

def macString (key payload : String) : String :=
  toString (macNat key payload)

/-- Modelled from the spec: Signer().sign appends the signature to the
payload, separated by a colon. -/
def signerSign (key payload : String) : String :=
  payload ++ ":" ++ macString key payload

/-- Split a token at its last colon into payload and signature. -/
def rsplitColon (s : String) : Option (String × String) :=
  match (s.toList.reverse).dropWhile (fun c => decide (c ≠ ':')) with
  | ':' :: payloadRev =>
      some (String.mk payloadRev.reverse,
        String.mk ((s.toList.reverse).takeWhile (fun c => decide (c ≠ ':'))).reverse)
  | _ => none

/-- Modelled from the spec: Signer().unsign raises BadSignature when the
token has no signature part or the signature over the payload does not
verify; otherwise it returns the payload. -/
def signerUnsign (key token : String) : PyResult String :=
  match rsplitColon token with
  | none => .error .badSignature
  | some payloadSig =>
      if payloadSig.2 = macString key payloadSig.1 then .ok payloadSig.1
      else .error .badSignature

/-- The JSON values round-tripped by these forms: the signed state is an
opaque serialized value, modelled as a JSON string literal. -/
inductive JValue
  | str (s : String)
  deriving DecidableEq

/-- Modelled from the spec: Python json.dumps on the state values the forms
sign, restricted to the string-literal fragment of JSON. -/
def jsonDumps : JValue → String
  | .str s => "\x22" ++ s ++ "\x22"

/-- Modelled from the spec: Python json.loads restricted to the fragment in
use; it raises a JSONDecodeError on any input outside the fragment, in
particular on the empty string and on unquoted text. -/
def jsonLoads (s : String) : PyResult JValue :=
  match s.toList with
  | [] => .error .jsonDecodeError
  | c :: rest =>
      if c = '\x22' ∧ rest ≠ [] ∧ rest.getLast? = some '\x22'
          ∧ rest.dropLast.contains '\x22' = false then
        .ok (.str (String.mk rest.dropLast))
      else .error .jsonDecodeError

/-- AuthenticateWebAuthnForm.clean_signed_state: run
json.loads(Signer().unsign(signed_state)) in a try block whose only handler
catches BadSignature and turns it into the Tampered form ValidationError;
any other exception propagates uncaught. -/
def AuthenticateWebAuthnForm.clean_signed_state (key signed_state : String) :
    PyResult JValue :=
  match signerUnsign key signed_state with
  | .error .badSignature => .error (.validationError .tampered_form)
  | .error e => .error e
  | .ok payload => jsonLoads payload

/-- AddWebAuthnForm.clean_signed_state: textually identical to the
AuthenticateWebAuthnForm method. -/
def AddWebAuthnForm.clean_signed_state (key signed_state : String) :
    PyResult JValue :=
  match signerUnsign key signed_state with
  | .error .badSignature => .error (.validationError .tampered_form)
  | .error e => .error e
  | .ok payload => jsonLoads payload

/-- C3 counterexample: a token whose signature verifies but whose payload is
not deserializable JSON makes clean_signed_state raise a decode error that
is not the controlled tampered_form ValidationError, in both forms. -/
theorem clean_signed_state_decode_error_escapes :
    AuthenticateWebAuthnForm.clean_signed_state "k" (signerSign "k" "x")
        = .error .jsonDecodeError
    ∧ AuthenticateWebAuthnForm.clean_signed_state "k" (signerSign "k" "x")
        ≠ .error (.validationError .tampered_form)
    ∧ AddWebAuthnForm.clean_signed_state "k" (signerSign "k" "x")
        ≠ .error (.validationError .tampered_form) := by
  decide

/-- C3 amended: whenever the signature does not verify, clean_signed_state
fails closed with the tampered_form ValidationError in both forms, and in
particular never succeeds on such a token; a deserialization failure of an
authentically signed payload, however, escapes as an uncaught decode error
rather than the tampered_form failure. -/
theorem clean_signed_state_bad_signature (key token : String)
    (h : signerUnsign key token = .error .badSignature) :
    AuthenticateWebAuthnForm.clean_signed_state key token
        = .error (.validationError .tampered_form)
    ∧ AddWebAuthnForm.clean_signed_state key token
        = .error (.validationError .tampered_form) := by
  constructor <;>
    simp [AuthenticateWebAuthnForm.clean_signed_state,
      AddWebAuthnForm.clean_signed_state, h]

theorem clean_signed_state_bad_signature_witness :
    AuthenticateWebAuthnForm.clean_signed_state "k" "x:0"
      = .error (.validationError .tampered_form) :=
  (clean_signed_state_bad_signature "k" "x:0" (by decide)).1

/-- Python truthiness of a parsed state value: a non-empty value. -/
def JValue.truthy : JValue → Bool
  | .str s => decide (s ≠ "")

/-- External collaborators of AuthenticateWebAuthnForm: the signing key,
the credential parser, the stored credentials of the user and the webauthn
verifier (allauth.mfa.webauthn, outside the examined source), the latter two
as opaque oracles. -/
structure AuthWebAuthnEnv where
  key : String
  parse_authentication_credential : JValue → JValue
  credentials : List Nat
  complete_authentication : JValue → List Nat → JValue → Nat

/-- Outcome of a completed AuthenticateWebAuthnForm validation: the recorded
errors (field name, or none for a non-field error, with the message), the
surviving cleaned_data entries and the verifier verdict. -/
structure AuthWebAuthnOutcome where
  field_errors : List (Option String × ErrorMessage)
  signed_state : Option JValue
  credential : Option JValue
  authenticator_data : Option Nat
  deriving DecidableEq

/-- The clean method of AuthenticateWebAuthnForm: state is read with
cleaned_data.get, but the credential entry is read with a plain subscript,
which raises KeyError when field validation removed it; the verifier is
invoked only when both entries are truthy. -/
def AuthenticateWebAuthnForm.clean_form (env : AuthWebAuthnEnv)
    (errs : List (Option String × ErrorMessage))
    (ssEntry credEntry : Option JValue) : PyResult AuthWebAuthnOutcome :=
  match credEntry with
  | none => .error (.keyError "credential")
  | some cv =>
      match ssEntry with
      | some sv =>
          if cv.truthy && sv.truthy then
            .ok ⟨errs, ssEntry, credEntry,
              some (env.complete_authentication sv env.credentials cv)⟩
          else .ok ⟨errs, ssEntry, credEntry, none⟩
      | none => .ok ⟨errs, ssEntry, credEntry, none⟩

/-- Field cleaning of the required credential field followed by the clean
method: a missing or empty submission records the required error and leaves
no cleaned_data entry; otherwise clean_credential runs
parse_authentication_credential(json.loads(credential)) with no handler, so
a JSONDecodeError on a malformed value propagates out of validation. -/
def AuthenticateWebAuthnForm.clean_rest (env : AuthWebAuthnEnv)
    (errs : List (Option String × ErrorMessage)) (ssEntry : Option JValue)
    (credential : Option String) : PyResult AuthWebAuthnOutcome :=
  match credential with
  | none =>
      AuthenticateWebAuthnForm.clean_form env
        (errs ++ [(some "credential", ErrorMessage.field_required)]) ssEntry none
  | some c =>
      if c = "" then
        AuthenticateWebAuthnForm.clean_form env
          (errs ++ [(some "credential", ErrorMessage.field_required)]) ssEntry none
      else
        match jsonLoads c with
        | .error e => .error e
        | .ok v =>
            AuthenticateWebAuthnForm.clean_form env errs ssEntry
              (some (env.parse_authentication_credential v))

/-- Django full_clean for AuthenticateWebAuthnForm: the optional
signed_state field cleans a missing value to the empty string and runs
clean_signed_state, recording a ValidationError as a field error and
letting any other exception propagate; then the required credential field
and the clean method run. -/
def AuthenticateWebAuthnForm.full_clean (env : AuthWebAuthnEnv)
    (signed_state credential : Option String) : PyResult AuthWebAuthnOutcome :=
  match AuthenticateWebAuthnForm.clean_signed_state env.key
      (signed_state.getD "") with
  | .error (.validationError m) =>
      AuthenticateWebAuthnForm.clean_rest env [(some "signed_state", m)] none
        credential
  | .error e => .error e
  | .ok st => AuthenticateWebAuthnForm.clean_rest env [] (some st) credential

def envAWA : AuthWebAuthnEnv := ⟨"k", id, [1], fun _ _ _ => 42⟩

/-- C4 failing inputs: a malformed (non-JSON) credential value makes
validation of AuthenticateWebAuthnForm raise an uncaught JSONDecodeError
from clean_credential, and a submission without the credential field makes
the clean method raise an uncaught KeyError from its plain subscript;
neither completes with recorded errors. -/
theorem authWebAuthn_uncontrolled_exceptions :
    AuthenticateWebAuthnForm.full_clean envAWA none (some "nonjson")
        = .error .jsonDecodeError
    ∧ AuthenticateWebAuthnForm.full_clean envAWA none none
        = .error (.keyError "credential") := by
  decide

/-- A parsed registration credential: the identity and the user-verification
flag reported by attestation_object.auth_data.is_user_verified(). -/
structure RegCredential where
  id : Nat
  user_verified : Bool
  deriving DecidableEq

/-- External collaborator of AddWebAuthnForm.clean: the webauthn
registration verifier (allauth.mfa.webauthn.complete_registration, outside
the examined source), as an opaque oracle. -/
structure AddWebAuthnEnv where
  complete_registration : JValue → RegCredential → Nat

/-- Outcome of AddWebAuthnForm.clean: the non-field errors added through
add_error, the verifier verdict stored into cleaned_data, and the trace. -/
structure AddWebAuthnCleanResult where
  errors : List ErrorMessage
  authenticator_data : Option Nat
  trace : List Event
  deriving DecidableEq

/-- AddWebAuthnForm.clean: when a parsed credential is present and
passwordless is requested while the credential reports no user
verification, add the passwordless policy error; then, whenever both the
credential and a truthy state are present, delegate to
complete_registration regardless of any error recorded before. -/
def AddWebAuthnForm.clean (env : AddWebAuthnEnv)
    (credential : Option RegCredential) (state : Option JValue)
    (passwordless : Bool) : AddWebAuthnCleanResult :=
  let errs : List ErrorMessage :=
    match credential with
    | some c =>
        if passwordless && !c.user_verified then
          [ErrorMessage.passwordless_unsupported]
        else []
    | none => []
  match credential, state with
  | some c, some sv =>
      if sv.truthy then
        ⟨errs, some (env.complete_registration sv c),
          [Event.complete_registration]⟩
      else ⟨errs, none, []⟩
  | _, _ => ⟨errs, none, []⟩

/-- C5: a passwordless registration with a credential that reports no user
verification records the passwordless policy error, which is distinct from
the generic credential-verification failure, and the error is recorded even
when the verifier runs and returns its verdict. -/
theorem addWebAuthn_passwordless_policy (env : AddWebAuthnEnv)
    (c : RegCredential) (state : Option JValue)
    (h : c.user_verified = false) :
    ErrorMessage.passwordless_unsupported
        ∈ (AddWebAuthnForm.clean env (some c) state true).errors
    ∧ ErrorMessage.passwordless_unsupported
        ≠ ErrorMessage.credential_verification_failed
    ∧ ∀ sv, state = some sv → sv.truthy = true →
        (AddWebAuthnForm.clean env (some c) state true).authenticator_data
          = some (env.complete_registration sv c) := by
  refine ⟨?_, by decide, ?_⟩
  · cases state with
    | none => simp [AddWebAuthnForm.clean, h]
    | some sv =>
        cases ht : sv.truthy <;> simp [AddWebAuthnForm.clean, h, ht]
  · intro sv hst htr
    subst hst
    simp [AddWebAuthnForm.clean, h, htr]

def envAdd : AddWebAuthnEnv := ⟨fun _ _ => 5⟩

theorem addWebAuthn_passwordless_policy_witness :
    ErrorMessage.passwordless_unsupported
      ∈ (AddWebAuthnForm.clean envAdd (some ⟨1, false⟩)
          (some (JValue.str "st")) true).errors :=
  (addWebAuthn_passwordless_policy envAdd ⟨1, false⟩ (some (JValue.str "st"))
    (by decide)).1

/-- C9: when passwordless is requested, the credential reports no user
verification, and a parsed credential together with a truthy state are both
present, the policy error is recorded and complete_registration is still
invoked, its verdict stored into cleaned_data: the policy rejection does
not short-circuit the verifier delegation. -/
theorem addWebAuthn_policy_error_does_not_short_circuit
    (env : AddWebAuthnEnv) (c : RegCredential) (sv : JValue)
    (h : c.user_verified = false) (ht : sv.truthy = true) :
    (AddWebAuthnForm.clean env (some c) (some sv) true).errors
        = [ErrorMessage.passwordless_unsupported]
    ∧ Event.complete_registration
        ∈ (AddWebAuthnForm.clean env (some c) (some sv) true).trace
    ∧ (AddWebAuthnForm.clean env (some c) (some sv) true).authenticator_data
        = some (env.complete_registration sv c) := by
  refine ⟨?_, ?_, ?_⟩ <;> simp [AddWebAuthnForm.clean, h, ht]

theorem addWebAuthn_policy_error_does_not_short_circuit_witness :
    (AddWebAuthnForm.clean envAdd (some ⟨1, false⟩)
        (some (JValue.str "st")) true).authenticator_data = some 5 :=
  (addWebAuthn_policy_error_does_not_short_circuit envAdd ⟨1, false⟩
    (JValue.str "st") (by decide) (by decide)).2.2

end MfaForms
